import Mathlib

/-!
Shallow embedding of the CricketIQ answer pipeline.

The embedded code is the chat endpoint `ChatView.post` given in
`.github/phase-2-mongodb/MONGODB-INTEGRATION-GUIDE.md` (result formatting,
chart population, error dispatch) and the frontend hook `useChat.ask`.
Python dictionaries with ordered fields become association lists; Python
string `replace`, `str.join`, f-string thousands formatting and JS `trim`
are embedded as executable character-list functions below.
-/

/-- A document field value: string, number, or null. Numbers are embedded
as integers (the repository data is integral run/wicket counts). -/
inductive Value where
  | str : String → Value
  | num : Int → Value
  | null : Value
deriving DecidableEq

/-- A result document: ordered field map, as a Python dict with insertion
order. The grouping bucket key is stored under the reserved field id. -/
abbrev Doc := List (String × Value)

/-- Python membership test `k in doc`. -/
def hasKey (d : Doc) (k : String) : Bool :=
  d.any (fun kv => kv.1 == k)

/-- Lookup `doc[k]`. -/
def getVal (d : Doc) (k : String) : Option Value :=
  (d.find? (fun kv => kv.1 == k)).map (fun kv => kv.2)

/-- Decimal digits of a natural number, fuel-indexed so that it reduces in
the kernel. -/
def natDigitsAux : Nat → Nat → List Char
  | 0, _ => []
  | fuel + 1, n =>
    if n < 10 then [Char.ofNat (48 + n)]
    else natDigitsAux fuel (n / 10) ++ [Char.ofNat (48 + n % 10)]

/-- Python `str` of a natural number. -/
def natToString (n : Nat) : String :=
  String.mk (natDigitsAux (n + 1) n)

/-- Python `str` of an integer. -/
def intToString (i : Int) : String :=
  if i < 0 then "-" ++ natToString i.natAbs else natToString i.natAbs

/-- Python `str(value)`: strings print bare, numbers in decimal, `None`
prints as the word None. -/
def valueToString : Value → String
  | Value.str s => s
  | Value.num n => intToString n
  | Value.null => "None"

/-- The string form of the bucket key field of a document. -/
def idStr (d : Doc) : String :=
  valueToString ((getVal d "_id").getD Value.null)

/-- The scan `for k, v in doc.items(): if k != "_id" and isinstance(v, (int, float)):
take v` — the first numeric field other than the bucket key, in stored order. -/
def firstNumeric : Doc → Option Int
  | [] => none
  | (k, v) :: rest =>
    if k == "_id" then firstNumeric rest
    else
      match v with
      | Value.num n => some n
      | _ => firstNumeric rest

/-- Groups of three characters, used for thousands grouping. -/
def chunk3 : List Char → List (List Char)
  | [] => []
  | a :: b :: c :: rest => [a, b, c] :: chunk3 rest
  | l => [l]

/-- Python format `f"{n:,}"` on a natural number: decimal digits with a
comma every three digits from the right. -/
def formatThousandsNat (n : Nat) : String :=
  String.mk (List.intercalate [','] (chunk3 (natDigitsAux (n + 1) n).reverse)).reverse

/-- Python format `f"{v:,}"` on an integer. -/
def formatThousands (i : Int) : String :=
  if i < 0 then "-" ++ formatThousandsNat i.natAbs else formatThousandsNat i.natAbs

/-- Python `s.replace(pat, rep)` on character lists: leftmost,
non-overlapping, all occurrences. Fuel-indexed to reduce in the kernel;
with a non-empty pattern the fuel `s.length` is never exhausted. -/
def replaceChars : Nat → List Char → List Char → List Char → List Char
  | 0, s, _, _ => s
  | _ + 1, [], _, _ => []
  | fuel + 1, c :: rest, pat, rep =>
    if pat.isPrefixOf (c :: rest) then rep ++ replaceChars fuel ((c :: rest).drop pat.length) pat rep
    else c :: replaceChars fuel rest pat rep

/-- Python `s.replace(pat, rep)`. -/
def pyReplace (s pat rep : String) : String :=
  String.mk (replaceChars s.data.length s.data pat.data rep.data)

/-- Python `sep.join(parts)`. -/
def pyJoin (sep : String) (parts : List String) : String :=
  String.mk (List.intercalate sep.data (parts.map String.data))

/-- The execution result handed to the formatter: the pair of the `type`
tag and the `data` payload of `execution_result`. A `dict` result carries
one document, a `list` result a document sequence. -/
inductive ExecData where
  | dict : Doc → ExecData
  | list : List Doc → ExecData
  | empty : ExecData
deriving DecidableEq

/-- The `result_str` computation shared by the single-document branches:
scan for the first numeric field; Python `if numeric_val:` is a truthiness
test, so a measure of zero falls to the bare-name branch exactly as `None`
does. -/
def resultString (d : Doc) : String :=
  match firstNumeric d with
  | some n => if n != 0 then idStr d ++ " with " ++ formatThousands n else idStr d
  | none => idStr d

/-- The `result_type == "dict"` branch: replace every double-brace field
placeholder by the string form of the field value, in stored order, then
resolve the result token when the document has a bucket key. An empty
document is falsy in Python, leaving the template untouched. -/
def renderDict (template : String) (d : Doc) : String :=
  if d.isEmpty then template
  else
    let afterFields :=
      d.foldl (fun acc kv => pyReplace acc ("\x7b\x7b" ++ kv.1 ++ "\x7d\x7d") (valueToString kv.2)) template
    if hasKey d "_id" then pyReplace afterFields "\x7bresult\x7d" (resultString d)
    else afterFields

/-- The one-element `list` branch: same name/measure rule, no field
placeholder pass. -/
def renderListOne (template : String) (d : Doc) : String :=
  if hasKey d "_id" then pyReplace template "\x7bresult\x7d" (resultString d)
  else template

/-- The loop of the many-element `list` branch: one formatted pair per
document that has a bucket key and a numeric field, in input order;
other documents contribute nothing. -/
def formatMultiple : List Doc → List String
  | [] => []
  | d :: rest =>
    if hasKey d "_id" then
      match firstNumeric d with
      | some n => (idStr d ++ " (" ++ formatThousands n ++ ")") :: formatMultiple rest
      | none => formatMultiple rest
    else formatMultiple rest

/-- The many-element `list` branch: comma-join the formatted pairs into
the result token. -/
def renderListMany (template : String) (docs : List Doc) : String :=
  pyReplace template "\x7bresult\x7d" (pyJoin ", " (formatMultiple docs))

/-- The `result_type == "empty"` branch: the result token becomes the
literal No data found. -/
def renderEmpty (template : String) : String :=
  pyReplace template "\x7bresult\x7d" "No data found"

/-- The answer-formatting dispatch of `ChatView.post`: branch on the
result type; a `list` of exactly one document is treated like a dict
(without the field pass), any other length goes to the join loop. -/
def formatAnswer (template : String) (data : ExecData) : String :=
  match data with
  | ExecData.dict d => renderDict template d
  | ExecData.list docs =>
    match docs with
    | [d] => renderListOne template d
    | _ => renderListMany template docs
  | ExecData.empty => renderEmpty template

/-- The `chart_suggestion` object: `type` and `title` entries, each
possibly absent. The empty suggestion dict is the pair of two absences. -/
structure ChartSuggestion where
  type : Option String
  title : Option String
deriving DecidableEq

/-- The `chart_data` payload. -/
structure ChartData where
  type : String
  title : String
  labels : List String
  values : List Int
deriving DecidableEq

/-- The chart loop, label side: every document with a bucket key
contributes the string form of its key, in input order. -/
def chartLabels : List Doc → List String
  | [] => []
  | d :: rest => if hasKey d "_id" then idStr d :: chartLabels rest else chartLabels rest

/-- The chart loop, value side: a document contributes its first numeric
field only when it has a bucket key and such a field exists, in input
order. -/
def chartValues : List Doc → List Int
  | [] => []
  | d :: rest =>
    if hasKey d "_id" then
      match firstNumeric d with
      | some n => n :: chartValues rest
      | none => chartValues rest
    else chartValues rest

/-- Chart population: requires a truthy suggestion type, a `list` result
and at least three documents in total; the title defaults to Analysis
when the suggestion has no title entry. -/
def buildChart (cs : ChartSuggestion) (data : ExecData) : Option ChartData :=
  if (cs.type.getD "") != "" then
    match data with
    | ExecData.list docs =>
      if 3 ≤ docs.length then
        some ⟨cs.type.getD "", cs.title.getD "Analysis", chartLabels docs, chartValues docs⟩
      else none
    | _ => none
  else none

/-- A document qualifies for the pair/chart series when it has a bucket
key and a numeric field. -/
def isQualifying (d : Doc) : Bool :=
  hasKey d "_id" && (firstNumeric d).isSome

/-- The number of qualifying documents of a list. -/
def countQualifying (docs : List Doc) : Nat :=
  (docs.filter isQualifying).length

/-- Modelled from the spec: a transformation stage of a pipeline
descriptor, carrying its stage key, the nesting depth of a join stage
(zero for every other stage) and the bound of a size-limiting stage
(zero for every other stage). The file `mongo_query_engine.py` that
holds the stage grammar is referenced by the integration guide but
absent from the sources. -/
structure Stage where
  key : String
  joinDepth : Nat
  limitBound : Nat
deriving DecidableEq

/-- Modelled from the spec: the pipeline descriptor produced by the
oracle. -/
structure Descriptor where
  pipeline : List Stage
  collection : String
  answer_template : String
  chart_suggestion : ChartSuggestion

/-- The two known collections of the repository. -/
def knownCollection (c : String) : Bool :=
  c == "deliverywise" || c == "matchwise"

/-- Modelled from the spec: a stage key belongs to the allow-list —
filter, group, sort, limit, project, and a restricted join of depth at
most one. Write, merge and output stages are not in the list. -/
def allowedStage (s : Stage) : Bool :=
  s.key == "filter" || s.key == "group" || s.key == "sort" || s.key == "limit" ||
    s.key == "project" || (s.key == "join" && decide (s.joinDepth ≤ 1))

/-- The validation failure, naming what was rejected. -/
inductive ValidationError where
  | unknownCollection : String → ValidationError
  | disallowedStage : String → ValidationError
  | limitTooLarge : Nat → ValidationError
  | tooManyStages : Nat → ValidationError
deriving DecidableEq

/-- Modelled from the spec: the Pipeline Validator — a pure check that
the collection is known, every stage key is allow-listed, the
size-limiting bound is at most 1000 and the stage count at most 8,
failing with a ValidationError naming the offending part. The file
`mongo_query_engine.py` that holds this check is referenced by the
integration guide but absent from the sources. -/
def validateDescriptor (collection : String) (stages : List Stage) : Option ValidationError :=
  if !knownCollection collection then some (ValidationError.unknownCollection collection)
  else
    match stages.find? (fun s => !allowedStage s) with
    | some s => some (ValidationError.disallowedStage s.key)
    | none =>
      match stages.find? (fun s => s.key == "limit" && decide (1000 < s.limitBound)) with
      | some s => some (ValidationError.limitTooLarge s.limitBound)
      | none =>
        if 8 < stages.length then some (ValidationError.tooManyStages stages.length)
        else none

/-- Outcome of the engine: a result payload or a validation failure. -/
inductive EngineResult where
  | ok : ExecData → EngineResult
  | valErr : ValidationError → EngineResult

/-- Modelled from the spec: `engine.execute(pipeline, collection)` —
validate first, and contact the store (the abstract `store` argument)
only when validation passes. The boolean records whether the store was
contacted. -/
def engineExecute (store : String → List Stage → ExecData) (pipeline : List Stage)
    (collection : String) : EngineResult × Bool :=
  match validateDescriptor collection pipeline with
  | some e => (EngineResult.valErr e, false)
  | none => (EngineResult.ok (store collection pipeline), true)

/-- The oracle reply as `ChatView.post` sees it: either a dict with an
error entry, or a descriptor. -/
inductive AIResp where
  | err : String → AIResp
  | ok : Descriptor → AIResp

/-- The terminal outcome of one chat request. -/
inductive ChatOutcome where
  | generationError : String → ChatOutcome
  | validationFailed : ValidationError → ChatOutcome
  | success : String → Option ChartData → ChatOutcome

/-- What one run of `ChatView.post` did: its outcome, whether the store
was contacted, and whether validation of a descriptor was attempted. -/
structure ChatTrace where
  outcome : ChatOutcome
  storeContacted : Bool
  validationAttempted : Bool

/-- `ChatView.post` after serializer checks: an oracle error returns at
once, before any validation or execution; otherwise the engine runs the
descriptor and the answer and chart are built from its result. -/
def chatPost (store : String → List Stage → ExecData) (ai : AIResp) : ChatTrace :=
  match ai with
  | AIResp.err e => ⟨ChatOutcome.generationError e, false, false⟩
  | AIResp.ok d =>
    match engineExecute store d.pipeline d.collection with
    | (EngineResult.valErr v, contacted) => ⟨ChatOutcome.validationFailed v, contacted, true⟩
    | (EngineResult.ok data, contacted) =>
      ⟨ChatOutcome.success (formatAnswer d.answer_template data)
        (buildChart d.chart_suggestion data), contacted, true⟩

/-- JS `String.prototype.trim`: strip whitespace from both ends. -/
def jsTrim (s : String) : String :=
  String.mk ((s.data.dropWhile Char.isWhitespace).reverse.dropWhile Char.isWhitespace).reverse

/-- A chat message of the frontend hook. -/
structure Message where
  id : String
  role : String
  text : String
deriving DecidableEq

/-- The state held by the `useChat` hook. -/
structure ChatState where
  messages : List Message
  loading : Bool
deriving DecidableEq

/-- What the synchronous prefix of one `ask` call did: the state after
it, and the question sent to the API, when one was sent. -/
structure AskStep where
  state : ChatState
  requestSent : Option String
deriving DecidableEq

/-- The synchronous prefix of `useChat.ask`, up to the awaited API call:
guard on a blank question or an in-flight request, else append the user
message, raise the loading flag and send the trimmed question. The
`now` argument stands for `Date.now()`. -/
def ask (now : Nat) (question : String) (st : ChatState) : AskStep :=
  let trimmed := jsTrim question
  if trimmed == "" || st.loading then ⟨st, none⟩
  else
    ⟨⟨st.messages ++ [⟨"user-" ++ natToString now, "user", trimmed⟩], true⟩, some trimmed⟩

/-- Sanity check of the string embedding: replacement, joining and
thousands grouping on concrete inputs. -/
theorem string_embedding_checks :
    pyReplace "\x7bresult\x7d scored most" "\x7bresult\x7d" "No data found" = "No data found scored most" ∧
    formatThousands 1234567 = "1,234,567" ∧
    formatThousands 741 = "741" ∧
    formatThousands 0 = "0" ∧
    formatThousands (-1234) = "-1,234" ∧
    pyJoin ", " ["A (100)", "B (90)"] = "A (100), B (90)" := by
  decide

/-- Sanity check of the chart builder on the scenario with three fully
qualifying documents. -/
theorem chart_scenario_check :
    buildChart ⟨some "bar", none⟩
      (ExecData.list
        [[("_id", Value.str "A"), ("runs", Value.num 100)],
         [("_id", Value.str "B"), ("runs", Value.num 90)],
         [("_id", Value.str "C"), ("runs", Value.num 80)]]) =
      some ⟨"bar", "Analysis", ["A", "B", "C"], [100, 90, 80]⟩ := by
  decide

/-- The three scenario-C style documents with one measureless document in
the middle: A and C qualify, B has a bucket key but no numeric field. -/
def exMixed : List Doc :=
  [[("_id", Value.str "A"), ("runs", Value.num 100)],
   [("_id", Value.str "B")],
   [("_id", Value.str "C"), ("runs", Value.num 80)]]

/-- Three documents without a bucket key: none qualifies. -/
def exNoId : List Doc :=
  [[("runs", Value.num 1)], [("runs", Value.num 2)], [("runs", Value.num 3)]]

/-- Two fully qualifying documents. -/
def exTwo : List Doc :=
  [[("_id", Value.str "A"), ("runs", Value.num 100)],
   [("_id", Value.str "B"), ("runs", Value.num 90)]]

/-- A document with a bucket key and no numeric field. -/
def dNoNum : Doc := [("_id", Value.str "B")]

/-- A store stub for witnesses. -/
def storeStub : String → List Stage → ExecData := fun _ _ => ExecData.empty

/-- Replacing the whole template, when the template is exactly the result
token, yields the replacement itself. -/
theorem pyReplace_token (r : String) : pyReplace "\x7bresult\x7d" "\x7bresult\x7d" r = r := by
  show String.mk (r.data ++ []) = r
  rw [List.append_nil]

/-- The labels of the chart loop are the in-order string forms of the
bucket keys of the documents that have one. -/
theorem chartLabels_eq (docs : List Doc) :
    chartLabels docs = (docs.filter (fun d => hasKey d "_id")).map idStr := by
  induction docs with
  | nil => rfl
  | cons d rest ih =>
    cases h : hasKey d "_id" with
    | false => simp [chartLabels, h, List.filter_cons, ih]
    | true => simp [chartLabels, h, List.filter_cons, ih]

/-- The values of the chart loop are the in-order first numeric fields of
the qualifying documents. -/
theorem chartValues_eq (docs : List Doc) :
    chartValues docs = (docs.filter isQualifying).map (fun d => (firstNumeric d).getD 0) := by
  induction docs with
  | nil => rfl
  | cons d rest ih =>
    cases h : hasKey d "_id" with
    | false => simp [chartValues, isQualifying, h, List.filter_cons, ih]
    | true =>
      cases hn : firstNumeric d with
      | none => simp [chartValues, isQualifying, h, hn, List.filter_cons, ih]
      | some n => simp [chartValues, isQualifying, h, hn, List.filter_cons, ih]

/-- The pair list of the many-element branch is the in-order map over
the qualifying documents. -/
theorem formatMultiple_eq (docs : List Doc) :
    formatMultiple docs =
      (docs.filter isQualifying).map
        (fun d => idStr d ++ " (" ++ formatThousands ((firstNumeric d).getD 0) ++ ")") := by
  induction docs with
  | nil => rfl
  | cons d rest ih =>
    cases h : hasKey d "_id" with
    | false => simp [formatMultiple, isQualifying, h, List.filter_cons, ih]
    | true =>
      cases hn : firstNumeric d with
      | none => simp [formatMultiple, isQualifying, h, hn, List.filter_cons, ih]
      | some n => simp [formatMultiple, isQualifying, h, hn, List.filter_cons, ih]

/-- When every document that has a bucket key also has a numeric field,
the two chart series have the same length. -/
theorem chart_lengths_eq_of_all_qualify (docs : List Doc)
    (h : ∀ d ∈ docs, hasKey d "_id" = true → (firstNumeric d).isSome = true) :
    (chartLabels docs).length = (chartValues docs).length := by
  induction docs with
  | nil => rfl
  | cons d rest ih =>
    have hrest : ∀ x ∈ rest, hasKey x "_id" = true → (firstNumeric x).isSome = true :=
      fun x hx => h x (List.mem_cons_of_mem d hx)
    cases hid : hasKey d "_id" with
    | false => simp [chartLabels, chartValues, hid, ih hrest]
    | true =>
      have hs := h d (List.mem_cons_self d rest) hid
      cases hn : firstNumeric d with
      | none => rw [hn] at hs; simp at hs
      | some n => simp [chartLabels, chartValues, hid, hn, ih hrest]

/-- Claim C2 counterexample: on the empty result with template
result-token followed by scored most, the rendered answer keeps the
surrounding template text, so it is not exactly No data found. -/
theorem c2_counterexample :
    formatAnswer "\x7bresult\x7d scored most" ExecData.empty = "No data found scored most" ∧
    formatAnswer "\x7bresult\x7d scored most" ExecData.empty ≠ "No data found" := by
  decide

/-- Claim C2 (amended): for every empty execution result, the rendered
answer is the template with every result token replaced by the literal
No data found — surrounding template text is preserved, so the whole
answer is exactly No data found only when the template is exactly the
bare token, as in the second and third conjuncts. -/
theorem c2_empty_renders_no_data :
    (∀ template : String,
      formatAnswer template ExecData.empty = pyReplace template "\x7bresult\x7d" "No data found") ∧
    formatAnswer "\x7bresult\x7d" ExecData.empty = "No data found" ∧
    formatAnswer "\x7bresult\x7d scored most" ExecData.empty = "No data found scored most" :=
  ⟨fun _ => rfl, by decide, by decide⟩

/-- Claim C3 counterexample: three documents without a bucket key — zero
qualifying documents — still produce a chart payload (with empty series),
because the code gates on the total list length, not the qualifying
count. -/
theorem c3_counterexample :
    countQualifying exNoId = 0 ∧
    buildChart ⟨some "bar", none⟩ (ExecData.list exNoId) =
      some ⟨"bar", "Analysis", [], []⟩ := by
  decide

/-- Claim C3 (amended): the chart payload is non-null exactly when the
suggestion type is truthy, the result is a list, and the total document
count is at least three; the qualifying count is never consulted, and
dict or empty results never get a chart. -/
theorem c3_chart_gate (cs : ChartSuggestion) (docs : List Doc) (d : Doc) :
    (buildChart cs (ExecData.list docs) ≠ none ↔
      (cs.type.getD "" ≠ "" ∧ 3 ≤ docs.length)) ∧
    buildChart cs (ExecData.dict d) = none ∧
    buildChart cs ExecData.empty = none := by
  unfold buildChart
  by_cases ht : cs.type.getD "" = ""
  · simp [ht]
  · by_cases hl : 3 ≤ docs.length
    · simp [ht, hl]
    · simp [ht, hl]

/-- Claim C3 witness: the gate evaluated at the three keyless documents. -/
theorem c3_chart_gate_witness :
    (buildChart ⟨some "bar", none⟩ (ExecData.list exNoId) ≠ none ↔
      ((⟨some "bar", none⟩ : ChartSuggestion).type.getD "" ≠ "" ∧ 3 ≤ exNoId.length)) ∧
    buildChart ⟨some "bar", none⟩ (ExecData.dict dNoNum) = none ∧
    buildChart ⟨some "bar", none⟩ ExecData.empty = none :=
  c3_chart_gate ⟨some "bar", none⟩ exNoId dNoNum

/-- Claim C5 counterexample: a single document whose first numeric field
is zero renders the bare name, not name with zero — the Python truthiness
test drops a zero measure. -/
theorem c5_counterexample :
    formatAnswer "\x7bresult\x7d" (ExecData.dict [("_id", Value.str "X"), ("runs", Value.num 0)]) = "X" ∧
    formatAnswer "\x7bresult\x7d" (ExecData.dict [("_id", Value.str "X"), ("runs", Value.num 0)]) ≠ "X with 0" := by
  decide

/-- Claim C5 (amended): for a single-document result with a bucket key,
the result token renders as name with thousands-separated measure when
the first numeric field is non-zero; when that field is zero, or when no
numeric field exists, the bare name is rendered; scenario A evaluates as
the guide states. -/
theorem c5_single_rendering :
    (∀ (d : Doc) (n : Int), firstNumeric d = some n → n ≠ 0 →
      resultString d = idStr d ++ " with " ++ formatThousands n) ∧
    (∀ d : Doc, firstNumeric d = some 0 ∨ firstNumeric d = none → resultString d = idStr d) ∧
    (∀ d : Doc, hasKey d "_id" = true →
      formatAnswer "\x7bresult\x7d" (ExecData.list [d]) = resultString d) ∧
    formatAnswer "\x7bresult\x7d"
      (ExecData.dict [("_id", Value.str "Virat Kohli"), ("total_runs", Value.num 741)]) =
      "Virat Kohli with 741" := by
  refine ⟨?_, ?_, ?_, by decide⟩
  · intro d n hn hz
    simp [resultString, hn, hz]
  · intro d hd
    rcases hd with h | h <;> simp [resultString, h]
  · intro d hd
    simp [formatAnswer, renderListOne, hd, pyReplace_token]

/-- Claim C5 witness: the amended rendering rule evaluated on concrete
documents, each hypothesis discharged by computation. -/
theorem c5_single_rendering_witness :
    resultString [("_id", Value.str "A"), ("runs", Value.num 100)] =
      idStr [("_id", Value.str "A"), ("runs", Value.num 100)] ++ " with " ++ formatThousands 100 ∧
    resultString [("_id", Value.str "X"), ("runs", Value.num 0)] =
      idStr [("_id", Value.str "X"), ("runs", Value.num 0)] ∧
    formatAnswer "\x7bresult\x7d" (ExecData.list [dNoNum]) = resultString dNoNum :=
  ⟨c5_single_rendering.1 [("_id", Value.str "A"), ("runs", Value.num 100)] 100 (by decide) (by decide),
   c5_single_rendering.2.1 [("_id", Value.str "X"), ("runs", Value.num 0)] (Or.inl (by decide)),
   c5_single_rendering.2.2.1 dNoNum (by decide)⟩

/-- Claim C7: an oracle error makes `ChatView.post` return the generation
error at once — neither validation nor the store is touched. -/
theorem c7_generation_error_short_circuit (store : String → List Stage → ExecData) (e : String) :
    chatPost store (AIResp.err e) =
      ⟨ChatOutcome.generationError e, false, false⟩ :=
  rfl

/-- Claim C10: a question that trims to the empty string, or a call made
while loading, leaves the hook state unchanged and sends no request. -/
theorem c10_ask_guard (now : Nat) (q : String) (st : ChatState)
    (h : jsTrim q = "" ∨ st.loading = true) :
    ask now q st = ⟨st, none⟩ := by
  rcases h with h | h <;> simp [ask, h]

/-- Claim C10 witness: a whitespace-only question against an idle state. -/
theorem c10_ask_guard_witness :
    ask 0 "   " ⟨[], false⟩ = ⟨⟨[], false⟩, none⟩ :=
  c10_ask_guard 0 "   " ⟨[], false⟩ (Or.inl (by decide))

/-- Claim C4 counterexample: a chart payload built from a list containing
a document with a bucket key but no numeric field has three labels and
only two values — the two series differ in length. -/
theorem c4_counterexample :
    buildChart ⟨some "bar", none⟩ (ExecData.list exMixed) =
      some ⟨"bar", "Analysis", ["A", "B", "C"], [100, 80]⟩ ∧
    (chartLabels exMixed).length ≠ (chartValues exMixed).length := by
  decide

/-- Claim C4 (amended): each chart series is the in-order projection over
the documents satisfying its own inclusion rule — so relative input order
is preserved for all inputs — and the two series have equal length
whenever every document with a bucket key also has a numeric field; a
keyed document without a numeric field contributes a label but no value. -/
theorem c4_chart_order (docs : List Doc) :
    chartLabels docs = (docs.filter (fun d => hasKey d "_id")).map idStr ∧
    chartValues docs = (docs.filter isQualifying).map (fun d => (firstNumeric d).getD 0) ∧
    ((∀ d ∈ docs, hasKey d "_id" = true → (firstNumeric d).isSome = true) →
      (chartLabels docs).length = (chartValues docs).length) :=
  ⟨chartLabels_eq docs, chartValues_eq docs, chart_lengths_eq_of_all_qualify docs⟩

/-- Claim C4 witness: the order and length facts at the two fully
qualifying documents, the universal hypothesis discharged by computation. -/
theorem c4_chart_order_witness :
    chartLabels exTwo = (exTwo.filter (fun d => hasKey d "_id")).map idStr ∧
    chartValues exTwo = (exTwo.filter isQualifying).map (fun d => (firstNumeric d).getD 0) ∧
    (chartLabels exTwo).length = (chartValues exTwo).length :=
  ⟨(c4_chart_order exTwo).1, (c4_chart_order exTwo).2.1,
   (c4_chart_order exTwo).2.2 (by decide)⟩

/-- Claim C6: a list result with at least two qualifying documents takes
the many-element branch, and the result token becomes the comma-joined
name-and-measure pairs of exactly the qualifying documents, in input
order; documents without a bucket key or numeric field are skipped. -/
theorem c6_multiple_join (template : String) (docs : List Doc)
    (h : 2 ≤ countQualifying docs) :
    formatAnswer template (ExecData.list docs) =
      pyReplace template "\x7bresult\x7d"
        (pyJoin ", " ((docs.filter isQualifying).map
          (fun d => idStr d ++ " (" ++ formatThousands ((firstNumeric d).getD 0) ++ ")"))) := by
  have hlen : 2 ≤ docs.length := by
    calc 2 ≤ countQualifying docs := h
    _ ≤ docs.length := List.length_filter_le isQualifying docs
  match docs, hlen with
  | a :: b :: rest, _ =>
    show renderListMany template (a :: b :: rest) = _
    rw [renderListMany, formatMultiple_eq]

/-- Claim C6 witness: the join evaluated at the two qualifying documents. -/
theorem c6_multiple_join_witness :
    formatAnswer "\x7bresult\x7d" (ExecData.list exTwo) =
      pyReplace "\x7bresult\x7d" "\x7bresult\x7d"
        (pyJoin ", " ((exTwo.filter isQualifying).map
          (fun d => idStr d ++ " (" ++ formatThousands ((firstNumeric d).getD 0) ++ ")"))) :=
  c6_multiple_join "\x7bresult\x7d" exTwo (by decide)

/-- Claim C8: the values series is never longer than the labels series; a
keyed document always contributes its label, and a keyed document with no
numeric field contributes nothing to the values. -/
theorem c8_values_not_longer :
    (∀ docs : List Doc, (chartValues docs).length ≤ (chartLabels docs).length) ∧
    (∀ (d : Doc) (rest : List Doc), hasKey d "_id" = true →
      chartLabels (d :: rest) = idStr d :: chartLabels rest) ∧
    (∀ (d : Doc) (rest : List Doc), hasKey d "_id" = true → firstNumeric d = none →
      chartValues (d :: rest) = chartValues rest) := by
  refine ⟨?_, ?_, ?_⟩
  · intro docs
    induction docs with
    | nil => simp [chartLabels, chartValues]
    | cons d rest ih =>
      cases hid : hasKey d "_id" with
      | false => simpa [chartLabels, chartValues, hid] using ih
      | true =>
        cases hn : firstNumeric d with
        | none =>
          simp only [chartLabels, chartValues, hid, hn]
          exact le_trans ih (by simp)
        | some n => simpa [chartLabels, chartValues, hid, hn] using ih
  · intro d rest hd
    simp [chartLabels, hd]
  · intro d rest hd hn
    simp [chartValues, hd, hn]

/-- Claim C8 witness: the inequality at the mixed list and the per-document
contribution facts at the keyed measureless document. -/
theorem c8_values_not_longer_witness :
    (chartValues exMixed).length ≤ (chartLabels exMixed).length ∧
    chartLabels (dNoNum :: []) = idStr dNoNum :: chartLabels [] ∧
    chartValues (dNoNum :: []) = chartValues [] :=
  ⟨c8_values_not_longer.1 exMixed,
   c8_values_not_longer.2.1 dNoNum [] (by decide),
   c8_values_not_longer.2.2 dNoNum [] (by decide) (by decide)⟩

/-- Claim C9: whenever a chart payload is built, its type is copied
verbatim from the suggestion, and when the suggestion carries no title
entry the payload title is the literal Analysis. -/
theorem c9_chart_defaults (cs : ChartSuggestion) (data : ExecData) (c : ChartData)
    (h : buildChart cs data = some c) :
    cs.type = some c.type ∧ (cs.title = none → c.title = "Analysis") := by
  unfold buildChart at h
  cases hty : cs.type with
  | none => rw [hty] at h; simp at h
  | some t =>
    rw [hty] at h
    by_cases ht : t = ""
    · simp [ht] at h
    · cases data with
      | dict d => simp [ht] at h
      | empty => simp [ht] at h
      | list docs =>
        by_cases hl : 3 ≤ docs.length
        · simp only [Option.getD_some, ne_eq, ht, not_false_eq_true, bne_iff_ne,
            if_true, hl, if_pos] at h
          cases h
          exact ⟨rfl, fun hnone => by simp [hnone]⟩
        · simp [ht, hl] at h

/-- Claim C9 witness: the chart built from the mixed list with a bare bar
suggestion, the build equation discharged by computation. -/
theorem c9_chart_defaults_witness :
    (⟨some "bar", none⟩ : ChartSuggestion).type =
      some (ChartData.type ⟨"bar", "Analysis", ["A", "B", "C"], [100, 80]⟩) ∧
    ((⟨some "bar", none⟩ : ChartSuggestion).title = none →
      ChartData.title ⟨"bar", "Analysis", ["A", "B", "C"], [100, 80]⟩ = "Analysis") :=
  c9_chart_defaults ⟨some "bar", none⟩ (ExecData.list exMixed)
    ⟨"bar", "Analysis", ["A", "B", "C"], [100, 80]⟩ (by decide)

/-- Claim C1: a descriptor over a known collection containing a stage
outside the allow-list — a merge or write stage in particular — makes the
run fail with a ValidationError naming an offending stage, and the store
is never contacted. -/
theorem c1_disallowed_stage_rejected (store : String → List Stage → ExecData)
    (d : Descriptor) (hc : knownCollection d.collection = true)
    (hb : ∃ s, s ∈ d.pipeline ∧ allowedStage s = false) :
    ∃ s, s ∈ d.pipeline ∧ allowedStage s = false ∧
      (chatPost store (AIResp.ok d)).outcome =
        ChatOutcome.validationFailed (ValidationError.disallowedStage s.key) ∧
      (chatPost store (AIResp.ok d)).storeContacted = false := by
  have hfind : ∃ s, d.pipeline.find? (fun s => !allowedStage s) = some s := by
    rw [← Option.isSome_iff_exists, List.find?_isSome]
    obtain ⟨s, hs, hsa⟩ := hb
    exact ⟨s, hs, by simp [hsa]⟩
  obtain ⟨s₀, hf⟩ := hfind
  have hmem := List.mem_of_find?_eq_some hf
  have hbad : allowedStage s₀ = false := by
    have := List.find?_some hf
    simpa using this
  refine ⟨s₀, hmem, hbad, ?_, ?_⟩ <;>
    simp [chatPost, engineExecute, validateDescriptor, hc, hf]

/-- Claim C1 witness: a descriptor whose only stage is a merge stage, on
the known deliverywise collection. -/
theorem c1_disallowed_stage_rejected_witness :
    ∃ s, s ∈ (⟨[⟨"merge", 0, 0⟩], "deliverywise", "\x7bresult\x7d", ⟨none, none⟩⟩ : Descriptor).pipeline ∧
      allowedStage s = false ∧
      (chatPost storeStub (AIResp.ok ⟨[⟨"merge", 0, 0⟩], "deliverywise", "\x7bresult\x7d", ⟨none, none⟩⟩)).outcome =
        ChatOutcome.validationFailed (ValidationError.disallowedStage s.key) ∧
      (chatPost storeStub (AIResp.ok ⟨[⟨"merge", 0, 0⟩], "deliverywise", "\x7bresult\x7d", ⟨none, none⟩⟩)).storeContacted = false :=
  c1_disallowed_stage_rejected storeStub _ (by decide)
    ⟨⟨"merge", 0, 0⟩, by simp, by decide⟩
